import Mathlib

/-!
Verification of the value/gesture/geometry core of the
`syn2203/react-native-slider` component (`src/index.tsx`).

Numbers are modelled as rationals (`ℚ`); where IEEE special values
(`NaN`/`Infinity`) matter, a dedicated `JSNum` type models JavaScript
number semantics for the operations the code performs.
-/

namespace Slider

/-- Measured `{width, height}` pair (`Dimensions` in `src/types`). -/
structure Dimensions where
  width : ℚ
  height : ℚ
  deriving DecidableEq

/-- The part of the pan-responder gesture state the code reads (`dx`, `dy`). -/
structure GestureState where
  dx : ℚ
  dy : ℚ
  deriving DecidableEq

/-- The configuration subset of `SliderProps` that the core logic reads.
`isRTL` models the ambient `I18nManager.isRTL` flag. -/
structure SliderProps where
  minimumValue : ℚ
  maximumValue : ℚ
  step : ℚ
  dualSlider : Bool
  allowCrossover : Bool
  trackClickable : Bool
  disabled : Bool
  vertical : Bool
  isRTL : Bool
  thumbTouchSize : Option Dimensions
  deriving DecidableEq

/-- External `value` input: absent (`undefined`), a scalar, or an array
(the `value?: number | Array<number>` parameter of `normalizeValue`). -/
inductive SliderValue where
  | absent
  | scalar (x : ℚ)
  | arr (xs : List ℚ)
  deriving DecidableEq

/-- JavaScript falsiness of the `value` argument: `undefined` and `0` are
falsy; arrays are always truthy (models the `!value` test). -/
def jsFalsy : SliderValue → Bool
  | .absent => true
  | .scalar x => x == 0
  | .arr _ => false

/-- Models the `Array.isArray(value) && value.length === 0` test. -/
def isEmptyArr : SliderValue → Bool
  | .arr [] => true
  | _ => false

/-- `getBetweenValue` from `normalizeValue`:
`Math.max(Math.min(inputValue, maximumValue), minimumValue)`. -/
def getBetweenValue (props : SliderProps) (inputValue : ℚ) : ℚ :=
  max (min inputValue props.maximumValue) props.minimumValue

/-- Insert into an ascending list, used to model the numeric ascending
`sort((a, b) => a - b)`. -/
def insertSorted (x : ℚ) : List ℚ → List ℚ
  | [] => [x]
  | y :: ys => if x ≤ y then x :: y :: ys else y :: insertSorted x ys

/-- Ascending numeric sort, modelling `.sort((a, b) => a - b)`. -/
def sortAsc : List ℚ → List ℚ
  | [] => []
  | x :: xs => insertSorted x (sortAsc xs)

/-- `normalizeValue(props, value)` from `src/index.tsx` (lines 74–121):
falsy/empty input yields `[min, max]` (dual) or `[0]`; scalars are clamped;
arrays are clamped elementwise, with the dual-slider one-element window and
first-two/crossover-swap handling, and are sorted ascending otherwise. -/
def normalizeValue (props : SliderProps) (value : SliderValue) : List ℚ :=
  if jsFalsy value || isEmptyArr value then
    if props.dualSlider then [props.minimumValue, props.maximumValue] else [0]
  else
    match value with
    | .absent =>
        if props.dualSlider then [props.minimumValue, props.maximumValue]
        else [0]
    | .scalar x => [getBetweenValue props x]
    | .arr xs =>
        let normalized := xs.map (getBetweenValue props)
        if props.dualSlider then
          match normalized with
          | [s] =>
              let range := (props.maximumValue - props.minimumValue) * (1 / 10)
              [max (s - range) props.minimumValue,
               min (s + range) props.maximumValue]
          | v1 :: v2 :: _ =>
              if props.allowCrossover = false ∧ v1 > v2 then [v2, v1]
              else [v1, v2]
          | [] => sortAsc normalized
        else sortAsc normalized

/-- JavaScript `Math.round`: round half toward positive infinity. -/
def jsRound (x : ℚ) : ℤ := ⌊x + 1 / 2⌋

/-- `_getValue(gestureState)` from `src/index.tsx` (lines 438–483), as a pure
function of the configuration, measured sizes, current raw values, active
thumb index, drag anchor (`_previousLeft`) and the gesture deltas. -/
def getValue (props : SliderProps) (containerSize thumbSize : Dimensions)
    (rawValues : List ℚ) (activeThumbIndex : ℕ) (previousLeft : ℚ)
    (g : GestureState) : ℚ :=
  let length := containerSize.width - thumbSize.width
  let thumbLeft :=
    if props.vertical then previousLeft + g.dy * (-1)
    else previousLeft + g.dx
  let nonRtl := thumbLeft / length
  let r := if props.isRTL then 1 - nonRtl else nonRtl
  let buffer := if props.step ≠ 0 then props.step else 1 / 10
  let minValue :=
    if rawValues.length = 2 ∧ props.allowCrossover = false ∧
        activeThumbIndex = 1 then
      rawValues.getD 0 0 + buffer
    else props.minimumValue
  let maxValue :=
    if rawValues.length = 2 ∧ props.allowCrossover = false ∧
        ¬activeThumbIndex = 1 then
      rawValues.getD 1 0 - buffer
    else props.maximumValue
  if props.step ≠ 0 then
    max minValue (min maxValue
      (props.minimumValue +
        (jsRound (r * (props.maximumValue - props.minimumValue) / props.step) :
          ℚ) * props.step))
  else
    max minValue (min maxValue
      (r * (props.maximumValue - props.minimumValue) + props.minimumValue))

/-! ### JavaScript number semantics

`_getValue` divides by the track length with no guard; to examine what the
code does when that length is zero we re-run it over a model of JavaScript
numbers with `NaN` and signed infinities. -/

/-- A JavaScript number: a finite value, `NaN`, `Infinity` or `-Infinity`. -/
inductive JSNum where
  | num (q : ℚ)
  | nan
  | inf
  | ninf
  deriving DecidableEq

/-- JavaScript unary negation. -/
def jsNeg : JSNum → JSNum
  | .num q => .num (-q)
  | .nan => .nan
  | .inf => .ninf
  | .ninf => .inf

/-- JavaScript addition. -/
def jsAdd : JSNum → JSNum → JSNum
  | .num a, .num b => .num (a + b)
  | .nan, _ => .nan
  | _, .nan => .nan
  | .inf, .ninf => .nan
  | .ninf, .inf => .nan
  | .inf, _ => .inf
  | _, .inf => .inf
  | .ninf, _ => .ninf
  | _, .ninf => .ninf

/-- JavaScript subtraction. -/
def jsSub (a b : JSNum) : JSNum := jsAdd a (jsNeg b)

/-- JavaScript multiplication (`Infinity * 0 = NaN`). -/
def jsMul : JSNum → JSNum → JSNum
  | .num a, .num b => .num (a * b)
  | .nan, _ => .nan
  | _, .nan => .nan
  | .inf, .num b => if 0 < b then .inf else if b < 0 then .ninf else .nan
  | .num a, .inf => if 0 < a then .inf else if a < 0 then .ninf else .nan
  | .ninf, .num b => if 0 < b then .ninf else if b < 0 then .inf else .nan
  | .num a, .ninf => if 0 < a then .ninf else if a < 0 then .inf else .nan
  | .inf, .inf => .inf
  | .inf, .ninf => .ninf
  | .ninf, .inf => .ninf
  | .ninf, .ninf => .inf

/-- JavaScript division: `0 / 0 = NaN`, `x / 0 = ±Infinity` for `x ≠ 0`.
(ℚ has no negative zero; the sign of a zero divisor is taken as positive.) -/
def jsDiv : JSNum → JSNum → JSNum
  | .num a, .num b =>
      if b = 0 then (if a = 0 then .nan else if 0 < a then .inf else .ninf)
      else .num (a / b)
  | .nan, _ => .nan
  | _, .nan => .nan
  | .inf, .num b => if 0 ≤ b then .inf else .ninf
  | .ninf, .num b => if 0 ≤ b then .ninf else .inf
  | .num _, .inf => .num 0
  | .num _, .ninf => .num 0
  | _, _ => .nan

/-- JavaScript `Math.min`: `NaN` is contagious. -/
def jsMin : JSNum → JSNum → JSNum
  | .nan, _ => .nan
  | _, .nan => .nan
  | .ninf, _ => .ninf
  | _, .ninf => .ninf
  | .inf, b => b
  | a, .inf => a
  | .num a, .num b => .num (min a b)

/-- JavaScript `Math.max`: `NaN` is contagious. -/
def jsMax : JSNum → JSNum → JSNum
  | .nan, _ => .nan
  | _, .nan => .nan
  | .inf, _ => .inf
  | _, .inf => .inf
  | .ninf, b => b
  | a, .ninf => a
  | .num a, .num b => .num (max a b)

/-- JavaScript `Math.round` on a `JSNum`. -/
def jsRoundN : JSNum → JSNum
  | .num q => .num ((jsRound q : ℤ) : ℚ)
  | .nan => .nan
  | .inf => .inf
  | .ninf => .ninf

/-- `_getValue` re-read over JavaScript number semantics: the same lines as
`getValue`, with every arithmetic operator given its `NaN`/`Infinity`
behavior.  No branch of the source guards the division `thumbLeft / length`. -/
def getValueJS (props : SliderProps) (containerSize thumbSize : Dimensions)
    (rawValues : List JSNum) (activeThumbIndex : ℕ) (previousLeft : JSNum)
    (g : GestureState) : JSNum :=
  let length := jsSub (.num containerSize.width) (.num thumbSize.width)
  let thumbLeft :=
    if props.vertical then jsAdd previousLeft (jsMul (.num g.dy) (.num (-1)))
    else jsAdd previousLeft (.num g.dx)
  let nonRtl := jsDiv thumbLeft length
  let r := if props.isRTL then jsSub (.num 1) nonRtl else nonRtl
  let buffer : ℚ := if props.step ≠ 0 then props.step else 1 / 10
  let minValue :=
    if rawValues.length = 2 ∧ props.allowCrossover = false ∧
        activeThumbIndex = 1 then
      jsAdd (rawValues.getD 0 .nan) (.num buffer)
    else .num props.minimumValue
  let maxValue :=
    if rawValues.length = 2 ∧ props.allowCrossover = false ∧
        ¬activeThumbIndex = 1 then
      jsSub (rawValues.getD 1 .nan) (.num buffer)
    else .num props.maximumValue
  if props.step ≠ 0 then
    jsMax minValue (jsMin maxValue
      (jsAdd (.num props.minimumValue)
        (jsMul (jsRoundN (jsDiv
          (jsMul r (.num (props.maximumValue - props.minimumValue)))
          (.num props.step)))
          (.num props.step))))
  else
    jsMax minValue (jsMin maxValue
      (jsAdd (jsMul r (.num (props.maximumValue - props.minimumValue)))
        (.num props.minimumValue)))

/-! ### Value Store (`updateValues`, lines 123–158)

An `Animated.Value` cell is modelled as an identity tag plus its scalar
content; `new Animated.Value` allocations draw successive tags from a
counter. -/

/-- A mutable scalar cell (`Animated.Value`): an allocation identity and the
scalar it currently holds. -/
structure Cell where
  id : ℕ
  val : ℚ
  deriving DecidableEq

/-- A `number | Animated.Value` entry of the `values`/`newValues` arrays. -/
inductive JSVal where
  | raw (q : ℚ)
  | cell (c : Cell)
  deriving DecidableEq

/-- One iteration of the `values.map` body of `updateValues`: an existing
cell is written in place (same identity, new content); a raw number paired
with a cell adopts that cell; two raw numbers allocate a fresh cell. -/
def reconcileOne (fresh : ℕ) : JSVal → JSVal → Cell
  | .cell c, .cell c2 => ⟨c.id, c2.val⟩
  | .cell c, .raw q => ⟨c.id, q⟩
  | .raw _, .cell c2 => c2
  | .raw _, .raw q => ⟨fresh, q⟩

/-- The equal-length `values.map` loop of `updateValues`; `fresh` advances so
each `new Animated.Value` allocation gets a distinct identity.  (Both call
sites pass lists of equal length, so the second arm is never reached.) -/
def updateValuesGo (fresh : ℕ) : List JSVal → List JSVal → List Cell
  | [], _ => []
  | _ :: _, [] => []
  | v :: vs, n :: ns => reconcileOne fresh v n :: updateValuesGo (fresh + 1) vs ns

/-- `updateValues({values, newValues})` from `src/index.tsx` (lines 123–158):
a length mismatch restarts on `newValues` alone (building an entirely fresh
cell list); otherwise each position is reconciled in place. -/
def updateValues (fresh : ℕ) (values newValues : List JSVal) : List Cell :=
  if values.length ≠ newValues.length then updateValuesGo fresh newValues newValues
  else updateValuesGo fresh values newValues

/-! ### Geometry and hit-testing (`Rect`, `indexOfLowest`, `_thumbHitTest`) -/

/-- The rectangle built by `Rect({height, width, x, y})` (lines 29–60). -/
structure JSRect where
  x : ℚ
  y : ℚ
  width : ℚ
  height : ℚ
  deriving DecidableEq

/-- A rectangle with all fields zero, used as an out-of-range default. -/
def rect0 : JSRect := ⟨0, 0, 0, 0⟩

/-- `containsPoint(nativeX, nativeY)` of `Rect`. -/
def containsPoint (r : JSRect) (nativeX nativeY : ℚ) : Bool :=
  r.x ≤ nativeX ∧ r.y ≤ nativeY ∧ nativeX ≤ r.x + r.width ∧
    nativeY ≤ r.y + r.height

/-- `trackDistanceToPoint(nativeX)` of `Rect`: horizontal distance to the
rectangle, `0` when within its horizontal extent. -/
def trackDistanceToPoint (r : JSRect) (nativeX : ℚ) : ℚ :=
  if nativeX < r.x then r.x - nativeX
  else if r.x + r.width < nativeX then nativeX - (r.x + r.width)
  else 0

/-- `indexOfLowest(values)` (lines 160–168): a `forEach` scan that replaces
the running index only on a strictly smaller value, so the first of several
equal minima wins. -/
def indexOfLowest (values : List ℚ) : ℕ :=
  (List.range values.length).foldl
    (fun lowestIndex i =>
      if values.getD i 0 < values.getD lowestIndex 0 then i else lowestIndex)
    0

/-- The index of the first rectangle accepting the point, as the
`values.find((_, i) => ...)` scan of `_thumbHitTest` computes it. -/
def findHitIdx (p : JSRect → Bool) : List JSRect → Option ℕ
  | [] => none
  | r :: rs => if p r then some 0 else (findHitIdx p rs).map (· + 1)

/-- `_thumbHitTest(e)` (lines 590–633) as a function of the thumbs' touch
rectangles: `some i` means the gesture is accepted with active thumb `i`,
`none` that it is refused.  A containing rectangle wins first (lowest index);
otherwise a clickable track selects the single thumb, or the thumb at the
smallest horizontal distance via `indexOfLowest`. -/
def thumbHitTest (trackClickable : Bool) (rects : List JSRect)
    (nativeX nativeY : ℚ) : Option ℕ :=
  match findHitIdx (fun r => containsPoint r nativeX nativeY) rects with
  | some i => some i
  | none =>
      if trackClickable then
        if rects.length = 1 then some 0
        else some (indexOfLowest (rects.map (fun r => trackDistanceToPoint r nativeX)))
      else none

/-! ### Gesture handlers (lines 313–377)

The handlers are modelled as pure functions from the component's state (the
raw scalar contents of the value cells plus the transient gesture fields) to
the new state together with the list of callbacks they invoke, in invocation
order. -/

/-- A callback invocation: `onSlidingStart`, `onValueChange` or
`onSlidingComplete`, each carrying the raw value array and the active thumb
index it was called with. -/
inductive SliderEv where
  | slidingStart (vals : List ℚ) (idx : ℕ)
  | valueChange (vals : List ℚ) (idx : ℕ)
  | slidingComplete (vals : List ℚ) (idx : ℕ)
  deriving DecidableEq

/-- The state the gesture handlers read and write: the cells' raw scalars,
the transient active thumb index and drag anchor, and the measured sizes. -/
structure CompState where
  values : List ℚ
  activeThumbIndex : ℕ
  previousLeft : ℚ
  containerSize : Dimensions
  thumbSize : Dimensions
  deriving DecidableEq

/-- `_getCurrentValue(thumbIndex)`. -/
def getCurrentValue (st : CompState) (thumbIndex : ℕ) : ℚ :=
  st.values.getD thumbIndex 0

/-- `_getRatio(value)` (lines 421–424). -/
def getRat (props : SliderProps) (value : ℚ) : ℚ :=
  (value - props.minimumValue) / (props.maximumValue - props.minimumValue)

/-- `_getThumbLeft(value)` (lines 425–437). -/
def getThumbLeft (props : SliderProps) (containerSize thumbSize : Dimensions)
    (value : ℚ) : ℚ :=
  let standard := getRat props value
  let r := if props.isRTL then 1 - standard else standard
  r * ((if props.vertical then containerSize.height else containerSize.width) -
    thumbSize.width)

/-- `_setCurrentValue(value, thumbIndex)` (lines 487–528) restricted to its
effect on the raw scalars: the dual-slider crossover clamp against the other
thumb, then a write of the cell at the index. -/
def setCurrentValue (props : SliderProps) (values : List ℚ) (value : ℚ)
    (thumbIndex : ℕ) : List ℚ :=
  let v :=
    if props.dualSlider = true ∧ 2 ≤ values.length ∧
        props.allowCrossover = false then
      let otherValue := values.getD (if thumbIndex = 0 then 1 else 0) 0
      if thumbIndex = 0 ∧ otherValue < value then otherValue
      else if thumbIndex = 1 ∧ value < otherValue then otherValue
      else value
    else value
  values.set thumbIndex v

/-- `_handlePanResponderGrant(e)` (lines 313–329).  Note: this handler has no
`disabled` test; it always rewrites `_previousLeft` and always calls
`onSlidingStart`. -/
def handlePanResponderGrant (props : SliderProps) (st : CompState)
    (locationX : ℚ) : CompState × List SliderEv :=
  let pl :=
    if props.trackClickable then locationX - st.thumbSize.width
    else getThumbLeft props st.containerSize st.thumbSize
      (getCurrentValue st st.activeThumbIndex)
  let pl :=
    match props.thumbTouchSize with
    | some tts => pl - (tts.width - st.thumbSize.width) / 2
    | none => pl
  ({st with previousLeft := pl},
   [.slidingStart st.values st.activeThumbIndex])

/-- `_handlePanResponderMove(_e, gestureState)` (lines 331–346): a no-op when
`disabled`, otherwise commits `_getValue` through `_setCurrentValue` and then
calls `onValueChange` with the committed array. -/
def handlePanResponderMove (props : SliderProps) (st : CompState)
    (g : GestureState) : CompState × List SliderEv :=
  if props.disabled then (st, [])
  else
    let nv := getValue props st.containerSize st.thumbSize st.values
      st.activeThumbIndex st.previousLeft g
    let committed := setCurrentValue props st.values nv st.activeThumbIndex
    ({st with values := committed},
     [.valueChange committed st.activeThumbIndex])

/-- `_handlePanResponderEnd(_e, gestureState)` (lines 353–377), also installed
as the terminate handler: a no-op when `disabled`; otherwise commits the final
value, calls `onValueChange` only when `trackClickable`, then
`onSlidingComplete`, and finally resets `_activeThumbIndex` to `0`. -/
def handlePanResponderEnd (props : SliderProps) (st : CompState)
    (g : GestureState) : CompState × List SliderEv :=
  if props.disabled then (st, [])
  else
    let nv := getValue props st.containerSize st.thumbSize st.values
      st.activeThumbIndex st.previousLeft g
    let committed := setCurrentValue props st.values nv st.activeThumbIndex
    ({st with values := committed, activeThumbIndex := 0},
     (if props.trackClickable then
        [SliderEv.valueChange committed st.activeThumbIndex]
      else []) ++
       [.slidingComplete committed st.activeThumbIndex])

/-! ### Helper lemmas -/

theorem getBetweenValue_le (props : SliderProps)
    (hle : props.minimumValue ≤ props.maximumValue) (x : ℚ) :
    props.minimumValue ≤ getBetweenValue props x ∧
      getBetweenValue props x ≤ props.maximumValue := by
  unfold getBetweenValue
  exact ⟨le_max_right _ _, max_le (min_le_right _ _) hle⟩

theorem mem_insertSorted {x y : ℚ} {l : List ℚ} :
    y ∈ insertSorted x l ↔ y = x ∨ y ∈ l := by
  induction l with
  | nil => simp [insertSorted]
  | cons a l ih =>
      simp only [insertSorted]
      split
      · simp [List.mem_cons]
      · simp only [List.mem_cons, ih]
        tauto

theorem mem_sortAsc {y : ℚ} {l : List ℚ} : y ∈ sortAsc l ↔ y ∈ l := by
  induction l with
  | nil => simp [sortAsc]
  | cons a l ih => simp [sortAsc, mem_insertSorted, ih]

/-! ### Concrete configurations used by witnesses and counterexamples -/

/-- Single-thumb configuration with `minimumValue = 5`, `maximumValue = 10`. -/
def cfgSingle510 : SliderProps := ⟨5, 10, 0, false, true, true, false, false, false, none⟩

/-- Dual-thumb configuration over `[0, 100]`, continuous, crossover allowed. -/
def cfgDual100 : SliderProps := ⟨0, 100, 0, true, true, true, false, false, false, none⟩

/-- Dual-thumb configuration over `[0, 10]`, continuous, crossover allowed. -/
def cfgDual10 : SliderProps := ⟨0, 10, 0, true, true, true, false, false, false, none⟩

/-! ### C10, C2, C6: the Value Normalizer -/

/-- C10: a scalar input of exactly `0` is falsy in JavaScript, so
`normalizeValue` answers it through the empty/absent branch for every
configuration: `[minimumValue, maximumValue]` in dual mode, `[0]` in single
mode — even when `0` is outside the range, as the `cfgSingle510` instance
(range `[5, 10]`) shows. -/
theorem normalizeValue_scalar_zero_falsy (props : SliderProps) :
    normalizeValue props (SliderValue.scalar 0) =
      (if props.dualSlider then [props.minimumValue, props.maximumValue]
       else [0]) ∧
      normalizeValue cfgSingle510 (SliderValue.scalar 0) = [0] := by
  constructor
  · simp [normalizeValue, jsFalsy]
  · simp [normalizeValue, jsFalsy, cfgSingle510]

/-- C2 counterexample: with range `[5, 10]` in single mode, an absent input
normalizes to `[0]`, whose element `0` is below `minimumValue = 5` — the
claim that every element of every `normalize` output is within
`[minimumValue, maximumValue]` is false. -/
theorem normalizeValue_absent_out_of_bounds :
    normalizeValue cfgSingle510 SliderValue.absent = [0] ∧
      ¬(cfgSingle510.minimumValue ≤ 0) := by
  constructor
  · simp [normalizeValue, jsFalsy, cfgSingle510]
  · norm_num [cfgSingle510]

/-- C2 (amended): with `minimumValue ≤ maximumValue`, every element of
`normalizeValue props v` lies within `[minimumValue, maximumValue]` whenever
`v` is a truthy scalar or a nonempty array, or the slider is in dual mode;
the single-mode falsy branch (absent / scalar `0` / empty array) instead
returns the fixed `[0]`, which can lie outside the range. -/
theorem normalizeValue_clamped (props : SliderProps) (v : SliderValue)
    (hle : props.minimumValue ≤ props.maximumValue)
    (hv : (jsFalsy v || isEmptyArr v) = false ∨ props.dualSlider = true) :
    ∀ x ∈ normalizeValue props v,
      props.minimumValue ≤ x ∧ x ≤ props.maximumValue := by
  intro x hx
  have hrange : 0 ≤ (props.maximumValue - props.minimumValue) * (1 / 10) :=
    mul_nonneg (sub_nonneg.mpr hle) (by norm_num)
  unfold normalizeValue at hx
  by_cases hfe : (jsFalsy v || isEmptyArr v) = true
  · rw [if_pos hfe] at hx
    have hd : props.dualSlider = true := by
      rcases hv with h | h
      · rw [h] at hfe
        exact absurd hfe (by simp)
      · exact h
    rw [hd] at hx
    simp only [if_true, List.mem_cons, List.mem_singleton] at hx
    rcases hx with rfl | rfl | h
    · exact ⟨le_rfl, hle⟩
    · exact ⟨hle, le_rfl⟩
    · exact absurd h (List.not_mem_nil x)
  · rw [if_neg hfe] at hx
    have hfe' : (jsFalsy v || isEmptyArr v) = false := by
      simpa using hfe
    cases v with
    | absent => simp [jsFalsy] at hfe'
    | scalar a =>
        simp only [List.mem_singleton] at hx
        subst hx
        exact getBetweenValue_le props hle a
    | arr xs =>
        simp only at hx
        by_cases hd : props.dualSlider = true
        · rw [hd] at hx
          simp only [if_true] at hx
          rcases hm : xs.map (getBetweenValue props) with _ | ⟨s1, tl⟩
          · rw [hm] at hx
            simp [sortAsc] at hx
          · cases tl with
            | nil =>
                rw [hm] at hx
                have hs1 : s1 ∈ xs.map (getBetweenValue props) := by
                  rw [hm]; exact List.mem_singleton_self s1
                obtain ⟨a, -, ha⟩ := List.mem_map.mp hs1
                obtain ⟨hal, har⟩ := ha ▸ getBetweenValue_le props hle a
                have hx' : x ∈
                    [max (s1 - (props.maximumValue - props.minimumValue) * (1 / 10))
                       props.minimumValue,
                     min (s1 + (props.maximumValue - props.minimumValue) * (1 / 10))
                       props.maximumValue] := hx
                simp only [List.mem_cons, List.not_mem_nil, or_false] at hx'
                rcases hx' with rfl | rfl
                · exact ⟨le_max_right _ _, max_le (by linarith) hle⟩
                · exact ⟨le_min (by linarith) hle, min_le_right _ _⟩
            | cons s2 tl2 =>
                rw [hm] at hx
                have hs1 : s1 ∈ xs.map (getBetweenValue props) := by
                  rw [hm]; exact List.mem_cons_self s1 _
                have hs2 : s2 ∈ xs.map (getBetweenValue props) := by
                  rw [hm]; exact List.mem_cons_of_mem _ (List.mem_cons_self s2 _)
                obtain ⟨a1, -, ha1⟩ := List.mem_map.mp hs1
                obtain ⟨a2, -, ha2⟩ := List.mem_map.mp hs2
                have hb1 := ha1 ▸ getBetweenValue_le props hle a1
                have hb2 := ha2 ▸ getBetweenValue_le props hle a2
                have hx' : x ∈
                    (if props.allowCrossover = false ∧ s1 > s2 then [s2, s1]
                     else [s1, s2]) := hx
                split at hx' <;>
                  (simp only [List.mem_cons, List.not_mem_nil, or_false] at hx'
                   rcases hx' with rfl | rfl)
                · exact hb2
                · exact hb1
                · exact hb1
                · exact hb2
        · rw [Bool.not_eq_true] at hd
          rw [hd] at hx
          simp only [Bool.false_eq_true, if_false] at hx
          obtain ⟨a, -, ha⟩ := List.mem_map.mp (mem_sortAsc.mp hx)
          exact ha ▸ getBetweenValue_le props hle a

/-- C2 witness: the bounds delivered by `normalizeValue_clamped` at the
concrete dual configuration over `[0, 100]` and input `[50]`, instantiated at
the output element `40`. -/
theorem normalizeValue_clamped_witness :
    cfgDual100.minimumValue ≤ 40 ∧ (40 : ℚ) ≤ cfgDual100.maximumValue := by
  refine normalizeValue_clamped cfgDual100 (SliderValue.arr [50])
    (by norm_num [cfgDual100]) (Or.inl rfl) 40 ?_
  norm_num [normalizeValue, cfgDual100, jsFalsy, isEmptyArr, getBetweenValue]

/-- C6 counterexample: the claim's window formula uses the raw element `v`;
for the out-of-range element `200` over `[0, 100]` the code clamps first and
returns `[90, 100]`, while the claimed lower end `max(200 − 10, 0) = 190`
differs. -/
theorem normalizeValue_window_out_of_bounds :
    normalizeValue cfgDual100 (SliderValue.arr [200]) = [90, 100] ∧
      (90 : ℚ) ≠
        max ((200 : ℚ) -
          (cfgDual100.maximumValue - cfgDual100.minimumValue) * (1 / 10))
          cfgDual100.minimumValue := by
  constructor
  · norm_num [normalizeValue, cfgDual100, jsFalsy, isEmptyArr, getBetweenValue]
  · norm_num [cfgDual100]

/-- C6 (amended): in dual mode, a one-element sequence `[v]` is first clamped
to `c = getBetweenValue v` and yields the window
`[max (c − 0.1·range) min, min (c + 0.1·range) max]` (around the clamped
element, so `normalize({0..100, dual}, [50]) = [40, 60]`); a sequence of two
or more elements yields its first two clamped, swapped exactly when crossover
is disallowed and the first clamped element exceeds the second (so `[7, 3]`
stays `[7, 3]` when `allowCrossover` is true). -/
theorem normalizeValue_dual_branches (props : SliderProps)
    (hd : props.dualSlider = true) :
    (∀ v : ℚ,
      normalizeValue props (SliderValue.arr [v]) =
        [max (getBetweenValue props v -
            (props.maximumValue - props.minimumValue) * (1 / 10))
          props.minimumValue,
         min (getBetweenValue props v +
            (props.maximumValue - props.minimumValue) * (1 / 10))
          props.maximumValue]) ∧
    (∀ (v1 v2 : ℚ) (rest : List ℚ),
      normalizeValue props (SliderValue.arr (v1 :: v2 :: rest)) =
        if props.allowCrossover = false ∧
            getBetweenValue props v2 < getBetweenValue props v1 then
          [getBetweenValue props v2, getBetweenValue props v1]
        else [getBetweenValue props v1, getBetweenValue props v2]) := by
  constructor
  · intro v
    simp [normalizeValue, jsFalsy, isEmptyArr, hd]
  · intro v1 v2 rest
    simp only [normalizeValue, jsFalsy, isEmptyArr, hd, Bool.or_false,
      if_false, List.map_cons, if_true]
    rfl

/-- C6 witness: the amended branches at concrete inputs —
`normalize({0..100, dual}, [50]) = [40, 60]` and
`normalize({0..10, dual, allowCrossover}, [7, 3]) = [7, 3]`. -/
theorem normalizeValue_dual_branches_witness :
    normalizeValue cfgDual100 (SliderValue.arr [50]) = [40, 60] ∧
      normalizeValue cfgDual10 (SliderValue.arr [7, 3]) = [7, 3] := by
  constructor
  · have h := (normalizeValue_dual_branches cfgDual100 rfl).1 50
    rw [h]
    norm_num [getBetweenValue, cfgDual100]
  · have h := (normalizeValue_dual_branches cfgDual10 rfl).2 7 3 []
    rw [h]
    norm_num [getBetweenValue, cfgDual10]

/-! ### C1, C5: the Gesture-to-Value Mapper -/

/-- Single-thumb configuration with `step = 5` over `[0, 100]`. -/
def cfgStep5 : SliderProps := ⟨0, 100, 5, false, true, true, false, false, false, none⟩

/-- Dual-thumb configuration over `[0, 100]`, `step = 0`, crossover
disallowed. -/
def cfgSep : SliderProps := ⟨0, 100, 0, true, false, true, false, false, false, none⟩

/-- C1 counterexample: with `step = 5` over `[0, 100]` and drag ratio
`0.23` (track length `100`, thumb left `23`), `_getValue` returns `25`,
not the claimed `20`: `Math.round(23 / 5) = Math.round(4.6) = 5` and
`5 · 5 = 25` — the nearest multiple of `5` to `23` is `25`. -/
theorem getValue_ratio023_ne_20 :
    getValue cfgStep5 ⟨110, 40⟩ ⟨10, 40⟩ [0] 0 23 ⟨0, 0⟩ = 25 ∧
      (25 : ℚ) ≠ 20 := by
  constructor
  · norm_num [getValue, cfgStep5, jsRound]
  · norm_num

/-- C1 (amended): with `step = 5`, `minimumValue = 0`, `maximumValue = 100`,
a drag ratio of `0.23` quantizes to `25`: the mapper rounds
`(ratio · range) / step = 4.6` to the nearest integer `5`, multiplies back by
`step`, then clamps to `[minValue, maxValue]`. -/
theorem getValue_step_quantization (containerSize thumbSize : Dimensions)
    (previousLeft : ℚ) (g : GestureState)
    (hr : (previousLeft + g.dx) / (containerSize.width - thumbSize.width) =
      23 / 100) :
    getValue cfgStep5 containerSize thumbSize [0] 0 previousLeft g =
        max cfgStep5.minimumValue (min cfgStep5.maximumValue
          (cfgStep5.minimumValue +
            (jsRound ((23 / 100) *
              (cfgStep5.maximumValue - cfgStep5.minimumValue) /
                cfgStep5.step) : ℚ) * cfgStep5.step)) ∧
      getValue cfgStep5 containerSize thumbSize [0] 0 previousLeft g = 25 := by
  have h : getValue cfgStep5 containerSize thumbSize [0] 0 previousLeft g =
      max 0 (min 100 (0 + (jsRound ((23 / 100) * (100 - 0) / 5) : ℚ) * 5)) := by
    simp only [getValue, cfgStep5]
    norm_num [hr]
  constructor
  · rw [h]
    norm_num [cfgStep5]
  · rw [h]
    norm_num [jsRound]

/-- C1 witness: the amended quantization at the concrete geometry
(container width `110`, thumb width `10`, drag anchor `23`). -/
theorem getValue_step_quantization_witness :
    getValue cfgStep5 ⟨110, 40⟩ ⟨10, 40⟩ [0] 0 23 ⟨0, 0⟩ = 25 :=
  (getValue_step_quantization ⟨110, 40⟩ ⟨10, 40⟩ 23 ⟨0, 0⟩ (by norm_num)).2

/-- C5: with two thumbs and `allowCrossover = false`, `_getValue` restricts
the active thumb by the separation buffer (`step` when nonzero, else `0.1`):
the result for active thumb `1` never falls below the other thumb's value
plus the buffer, and the result for active thumb `0` never exceeds
`max(minimumValue, other − buffer)`; concretely with `step = 0`, thumb 0 at
`40` and thumb 1 at `60`, a drag of thumb 1 targeting below `40.1` yields
`40.1` and a drag of thumb 0 targeting above `59.9` yields `59.9`. -/
theorem getValue_separation_buffer (props : SliderProps)
    (containerSize thumbSize : Dimensions) (v0 v1 previousLeft : ℚ)
    (g : GestureState) (hnc : props.allowCrossover = false)
    (hv : props.vertical = false) :
    (v0 + (if props.step ≠ 0 then props.step else 1 / 10) ≤
        getValue props containerSize thumbSize [v0, v1] 1 previousLeft g) ∧
      (getValue props containerSize thumbSize [v0, v1] 0 previousLeft g ≤
        max props.minimumValue
          (v1 - (if props.step ≠ 0 then props.step else 1 / 10))) ∧
      ((previousLeft + g.dx) / (containerSize.width - thumbSize.width) * 100 <
          401 / 10 →
        getValue cfgSep containerSize thumbSize [40, 60] 1 previousLeft g =
          401 / 10) ∧
      (599 / 10 <
          (previousLeft + g.dx) / (containerSize.width - thumbSize.width) * 100 →
        getValue cfgSep containerSize thumbSize [40, 60] 0 previousLeft g =
          599 / 10) := by
  refine ⟨?_, ?_, ?_, ?_⟩
  · simp only [getValue, hnc, hv, Bool.false_eq_true, if_false]
    split_ifs <;>
      first
        | exact le_max_left _ _
        | (exfalso; simp_all)
  · simp only [getValue, hnc, hv, Bool.false_eq_true, if_false]
    split_ifs <;>
      first
        | exact max_le_max le_rfl (min_le_left _ _)
        | (exfalso; simp_all)
  · intro ht
    have h : getValue cfgSep containerSize thumbSize [40, 60] 1 previousLeft g =
        max (40 + 1 / 10) (min 100
          ((previousLeft + g.dx) / (containerSize.width - thumbSize.width) *
            100)) := by
      simp only [getValue, cfgSep]
      norm_num
    rw [h, min_eq_right (le_of_lt (lt_of_lt_of_le ht (by norm_num))),
      max_eq_left (by linarith)]
    norm_num
  · intro ht
    have h : getValue cfgSep containerSize thumbSize [40, 60] 0 previousLeft g =
        max 0 (min (60 - 1 / 10)
          ((previousLeft + g.dx) / (containerSize.width - thumbSize.width) *
            100)) := by
      simp only [getValue, cfgSep]
      norm_num
    rw [h, min_eq_left (by linarith), max_eq_right (by norm_num)]
    norm_num

/-- C5 witness: the separation clamps at concrete geometry (track length
`100`): a drag of thumb 1 targeting `10` yields `40.1`, a drag of thumb 0
targeting `90` yields `59.9`, and the general lower bound instantiated for
active thumb 1. -/
theorem getValue_separation_buffer_witness :
    getValue cfgSep ⟨110, 40⟩ ⟨10, 40⟩ [40, 60] 1 10 ⟨0, 0⟩ = 401 / 10 ∧
      getValue cfgSep ⟨110, 40⟩ ⟨10, 40⟩ [40, 60] 0 90 ⟨0, 0⟩ = 599 / 10 := by
  constructor
  · exact (getValue_separation_buffer cfgSep ⟨110, 40⟩ ⟨10, 40⟩ 40 60 10 ⟨0, 0⟩
      rfl rfl).2.2.1 (by norm_num)
  · exact (getValue_separation_buffer cfgSep ⟨110, 40⟩ ⟨10, 40⟩ 40 60 90 ⟨0, 0⟩
      rfl rfl).2.2.2 (by norm_num)

/-! ### C3: division by the track length is unguarded -/

/-- The default configuration (`minimumValue 0`, `maximumValue 1`, `step 0`,
single thumb, crossover allowed, clickable track, enabled). -/
def cfgDefault : SliderProps := ⟨0, 1, 0, false, true, true, false, false, false, none⟩

/-- C3: `_getValue` divides `thumbLeft / length` with no test on `length`.
At the initial unmeasured geometry (`containerSize = thumbSize = 0 × 0`, so
track length `0`) with drag anchor `0` and a zero-delta move, JavaScript
evaluates `0 / 0 = NaN`, and `NaN` survives `Math.min`/`Math.max`, so the
handler's `_setCurrentValue` commits `NaN` to the value cell read by the
projector — there is no pending/unready guard. -/
theorem getValueJS_zero_length_nan :
    getValueJS cfgDefault ⟨0, 0⟩ ⟨0, 0⟩ [JSNum.num 0] 0 (JSNum.num 0)
        ⟨0, 0⟩ = JSNum.nan := by
  norm_num [getValueJS, cfgDefault, jsSub, jsAdd, jsNeg, jsMul, jsDiv,
    jsMin, jsMax]

/-! ### C4, C9: gesture handlers, `disabled` and release ordering -/

/-- The default configuration with `disabled = true`. -/
def cfgDisabled : SliderProps := ⟨0, 1, 0, false, true, true, true, false, false, none⟩

/-- A measured single-thumb component state holding the value `0`. -/
def stOne : CompState := ⟨[0], 0, 0, ⟨200, 40⟩, ⟨20, 20⟩⟩

/-- C4 counterexample: with `disabled = true`, the grant handler is not a
no-op — `_handlePanResponderGrant` has no `disabled` test, so it still emits
the `onSlidingStart` notification (and rewrites the drag anchor). -/
theorem grant_disabled_still_notifies :
    cfgDisabled.disabled = true ∧
      (handlePanResponderGrant cfgDisabled stOne 30).2 =
        [SliderEv.slidingStart [0] 0] := by
  constructor
  · rfl
  · simp [handlePanResponderGrant, stOne]

/-- C4 (amended): while `disabled`, the move and release/terminate handlers
are no-ops — state unchanged, no thumb value mutated, no notification,
no error — but the grant handler is not suppressed: it still captures the
drag anchor and emits `onSlidingStart`, as the counterexample above
records. -/
theorem disabled_move_end_noop (props : SliderProps) (st : CompState)
    (g : GestureState) (hd : props.disabled = true) :
    handlePanResponderMove props st g = (st, []) ∧
      handlePanResponderEnd props st g = (st, []) := by
  unfold handlePanResponderMove handlePanResponderEnd
  rw [hd]
  simp

/-- C4 witness: the no-op move and release at a concrete disabled state. -/
theorem disabled_move_end_noop_witness :
    handlePanResponderMove cfgDisabled stOne ⟨5, 0⟩ = (stOne, []) ∧
      handlePanResponderEnd cfgDisabled stOne ⟨5, 0⟩ = (stOne, []) :=
  disabled_move_end_noop cfgDisabled stOne ⟨5, 0⟩ rfl

/-- Single-thumb configuration over `[0, 100]` with a clickable track. -/
def cfgClick : SliderProps := ⟨0, 100, 0, false, true, true, false, false, false, none⟩

/-- Single-thumb configuration over `[0, 100]` with `trackClickable =
false`. -/
def cfgNoClick : SliderProps := ⟨0, 100, 0, false, true, false, false, false, false, none⟩

/-- A measured single-thumb component state holding the value `50`. -/
def stFifty : CompState := ⟨[50], 0, 0, ⟨140, 40⟩, ⟨40, 40⟩⟩

/-- C9 counterexample: with `trackClickable = false` (and not disabled), the
release handler emits only `onSlidingComplete` — no `onValueChange` precedes
it, so release does not always emit a value-changed notification. -/
theorem end_without_trackClickable_no_valueChange :
    (handlePanResponderEnd cfgNoClick stFifty ⟨0, 0⟩).2 =
      [SliderEv.slidingComplete [0] 0] := by
  norm_num [handlePanResponderEnd, cfgNoClick, stFifty, getValue,
    setCurrentValue]

/-- C9 (amended): on release with `trackClickable = true` (the default) and
not disabled, the handler commits the final value and emits `onValueChange`
(with the committed full value array and the active index) followed by
`onSlidingComplete` (same array and index), then resets the active thumb
index to `0`; with `trackClickable = false` only `onSlidingComplete` is
emitted (the counterexample above), still after any `onValueChange` of the
gesture's moves. -/
theorem end_emits_value_then_complete (props : SliderProps) (st : CompState)
    (g : GestureState) (hd : props.disabled = false)
    (hc : props.trackClickable = true) :
    handlePanResponderEnd props st g =
      ({st with
          values := setCurrentValue props st.values
            (getValue props st.containerSize st.thumbSize st.values
              st.activeThumbIndex st.previousLeft g) st.activeThumbIndex,
          activeThumbIndex := 0},
        [SliderEv.valueChange
          (setCurrentValue props st.values
            (getValue props st.containerSize st.thumbSize st.values
              st.activeThumbIndex st.previousLeft g) st.activeThumbIndex)
          st.activeThumbIndex,
         SliderEv.slidingComplete
          (setCurrentValue props st.values
            (getValue props st.containerSize st.thumbSize st.values
              st.activeThumbIndex st.previousLeft g) st.activeThumbIndex)
          st.activeThumbIndex]) := by
  unfold handlePanResponderEnd
  rw [hd, hc]
  simp

/-- C9 witness: the release emission order at a concrete clickable state —
`onValueChange` then `onSlidingComplete`, both with the committed array. -/
theorem end_emits_value_then_complete_witness :
    (handlePanResponderEnd cfgClick stFifty ⟨0, 0⟩).2 =
      [SliderEv.valueChange [0] 0, SliderEv.slidingComplete [0] 0] := by
  have h := end_emits_value_then_complete cfgClick stFifty ⟨0, 0⟩ rfl rfl
  rw [h]
  norm_num [setCurrentValue, getValue, cfgClick, stFifty]

/-! ### C7: Value Store reconciliation -/

theorem updateValuesGo_cells (fresh : ℕ) (old : List Cell) (nv : List ℚ)
    (h : old.length = nv.length) :
    updateValuesGo fresh (old.map JSVal.cell) (nv.map JSVal.raw) =
      List.zipWith (fun c q => Cell.mk c.id q) old nv := by
  induction old generalizing nv fresh with
  | nil =>
      cases nv with
      | nil => rfl
      | cons q qs => simp at h
  | cons c cs ih =>
      cases nv with
      | nil => simp at h
      | cons q qs =>
          simp only [List.map_cons, updateValuesGo, reconcileOne,
            List.zipWith_cons_cons, List.cons.injEq, true_and]
          exact ih (fresh + 1) qs (by simpa using h)

theorem updateValuesGo_fresh (fresh : ℕ) (nv : List ℚ) :
    ∀ c ∈ updateValuesGo fresh (nv.map JSVal.raw) (nv.map JSVal.raw),
      fresh ≤ c.id ∧ c.val ∈ nv := by
  induction nv generalizing fresh with
  | nil => simp [updateValuesGo]
  | cons q qs ih =>
      intro c hc
      simp only [List.map_cons, updateValuesGo, reconcileOne,
        List.mem_cons] at hc
      rcases hc with rfl | hc
      · exact ⟨le_rfl, List.mem_cons_self q qs⟩
      · obtain ⟨h1, h2⟩ := ih (fresh + 1) c hc
        exact ⟨le_of_lt (Nat.lt_of_succ_le h1), List.mem_cons_of_mem q h2⟩

/-- C7: reconciling existing cells against a new scalar array of the same
length rewrites each cell in place — the result at every index is the old
cell's identity with the new content; a length mismatch instead builds an
entirely fresh cell list (every identity drawn at or above the allocation
counter, so none of the old handles), holding the new scalars. -/
theorem updateValues_preserves_cells (fresh : ℕ) (old : List Cell)
    (nv : List ℚ) :
    (old.length = nv.length →
        updateValues fresh (old.map JSVal.cell) (nv.map JSVal.raw) =
          List.zipWith (fun c q => Cell.mk c.id q) old nv) ∧
      (old.length ≠ nv.length →
        ∀ c ∈ updateValues fresh (old.map JSVal.cell) (nv.map JSVal.raw),
          fresh ≤ c.id ∧ c.val ∈ nv) := by
  constructor
  · intro h
    unfold updateValues
    rw [if_neg (by simpa using h)]
    exact updateValuesGo_cells fresh old nv h
  · intro h
    unfold updateValues
    rw [if_pos (by simpa using h)]
    exact updateValuesGo_fresh fresh nv

/-- C7 witness: two cells with identities `5` and `9` reconciled against the
same-length array `[3, 4]` keep their identities and take the new
contents. -/
theorem updateValues_preserves_cells_witness :
    updateValues 100 ([Cell.mk 5 1, Cell.mk 9 2].map JSVal.cell)
        ([3, 4].map JSVal.raw) = [Cell.mk 5 3, Cell.mk 9 4] := by
  have h := (updateValues_preserves_cells 100 [Cell.mk 5 1, Cell.mk 9 2]
    [3, 4]).1 rfl
  rw [h]
  rfl

/-! ### C8: hit-testing -/

theorem indexOfLowest_pair (d0 d1 : ℚ) :
    indexOfLowest [d0, d1] = if d1 < d0 then 1 else 0 := by
  unfold indexOfLowest
  rw [show List.range ([d0, d1] : List ℚ).length = [0, 1] from rfl]
  simp only [List.foldl_cons, List.foldl_nil, List.getD_cons_zero,
    List.getD_cons_succ]
  rw [if_neg (lt_irrefl d0)]
  simp only [List.getD_cons_zero]

theorem findHitIdx_eq_some (p : JSRect → Bool) (rects : List JSRect) (i : ℕ)
    (hi : i < rects.length) (hp : p (rects.getD i rect0) = true)
    (hj : ∀ j, j < i → p (rects.getD j rect0) = false) :
    findHitIdx p rects = some i := by
  induction rects generalizing i with
  | nil => simp at hi
  | cons r rs ih =>
      cases i with
      | zero =>
          simp only [List.getD_cons_zero] at hp
          simp [findHitIdx, hp]
      | succ n =>
          have h0 : p r = false := by
            have := hj 0 (Nat.succ_pos n)
            simpa using this
          simp only [findHitIdx, h0, Bool.false_eq_true, if_false]
          have hrec := ih n (by simpa using hi) (by simpa using hp)
            (fun j hjn => by
              have := hj (j + 1) (Nat.succ_lt_succ hjn)
              simpa using this)
          rw [hrec]
          rfl

/-- C8: the hit-test selects the first thumb (index order) whose touch
rectangle contains the touch point; when no rectangle contains it and the
track is clickable with two thumbs, it selects the thumb whose rectangle has
the strictly smaller horizontal distance to the point, and on a tie (or when
thumb 1 is not strictly closer) it selects index `0` — `indexOfLowest` only
replaces its running index on a strictly smaller value. -/
theorem thumbHitTest_selection (nativeX nativeY : ℚ) :
    (∀ (tc : Bool) (rects : List JSRect) (i : ℕ),
        i < rects.length →
        containsPoint (rects.getD i rect0) nativeX nativeY = true →
        (∀ j, j < i →
          containsPoint (rects.getD j rect0) nativeX nativeY = false) →
        thumbHitTest tc rects nativeX nativeY = some i) ∧
      (∀ r0 r1 : JSRect,
        containsPoint r0 nativeX nativeY = false →
        containsPoint r1 nativeX nativeY = false →
        thumbHitTest true [r0, r1] nativeX nativeY =
          some (if trackDistanceToPoint r1 nativeX <
              trackDistanceToPoint r0 nativeX then 1 else 0)) := by
  constructor
  · intro tc rects i hi hp hj
    unfold thumbHitTest
    rw [findHitIdx_eq_some _ rects i hi hp hj]
  · intro r0 r1 h0 h1
    unfold thumbHitTest
    have hfind : findHitIdx (fun r => containsPoint r nativeX nativeY)
        [r0, r1] = none := by
      simp [findHitIdx, h0, h1]
    rw [hfind]
    norm_num [List.map_cons, List.map_nil, indexOfLowest_pair]

/-- C8 witness: the point `(50, 5)` is outside both rectangles and
equidistant (distance `40`) from both, so the clickable-track branch selects
index `0`; and a point inside the first rectangle selects index `0` even with
a non-clickable track. -/
theorem thumbHitTest_selection_witness :
    thumbHitTest true [JSRect.mk 0 0 10 10, JSRect.mk 90 0 10 10] 50 5 =
        some 0 ∧
      thumbHitTest false [JSRect.mk 0 0 10 10, JSRect.mk 90 0 10 10] 5 5 =
        some 0 := by
  constructor
  · have h := (thumbHitTest_selection 50 5).2 (JSRect.mk 0 0 10 10)
      (JSRect.mk 90 0 10 10)
      (by norm_num [containsPoint])
      (by norm_num [containsPoint])
    rw [h]
    norm_num [trackDistanceToPoint]
  · exact (thumbHitTest_selection 5 5).1 false
      [JSRect.mk 0 0 10 10, JSRect.mk 90 0 10 10] 0 (by norm_num)
      (by norm_num [containsPoint, rect0])
      (fun j hj => absurd hj (Nat.not_lt_zero j))

end Slider
